import Mathlib

/-!
Shallow embedding of `src/skills/claims-data-analysis/scripts/claims_utils.py`
(functions `build_diagnosis_cohort`, `calculate_pdc`, `calculate_pmpm`,
`identify_episodes`) together with theorems settling the spec claims.

Modelling conventions, chosen once and used throughout:

* Python `datetime` values are modelled at day granularity by `Date`:
  `days` is the absolute day number (what `(d2 - d1).days` subtracts),
  `year`/`month` are the calendar fields read by `calculate_pmpm`'s
  month-count formula.  Date comparison in pandas compares the instants,
  which at day granularity is comparison of `days`.
* Python strings (diagnosis and drug code values) are modelled as `List Char`
  (`Text`); `str.startswith` is `strStartsWith`.  A dataframe cell that is
  missing/NaN is rendered by pandas `astype(str)` as the text "nan", modelled
  by `getField`'s default value.
* A pandas DataFrame is a list of records; boolean-mask filtering is
  `List.filter` with the row-wise denotation of the mask; `groupby` is
  realised by the list of distinct keys (`List.dedup`, membership-equal to
  the pandas key set) with per-key filtered sublists.  pandas `sort_values`
  is modelled by a stable insertion sort (`sortBy`); no proved statement
  depends on the order of ties.
* Python floats (`paid_amount`, the pdc value) are modelled as `Rat`;
  Python `round(x, 1)` is `round1` (round to nearest at one decimal; the
  tie-breaking direction is irrelevant to every statement proved here).
* The Python functions never raise on the inputs considered here (all
  fallible steps — column access, `int(...)` conversion — succeed on
  well-formed records), so each embedded function is total and returns its
  result record directly.
-/

/-- Day-granularity model of a `datetime`: absolute day number plus the
calendar year and month fields. -/
structure Date where
  days : Int
  year : Int
  month : Int
deriving DecidableEq, Repr

/-- Model of a Python string (code/text cell value). -/
abbrev Text := List Char

/-- Model of Python `str.startswith`: `strStartsWith s p` is true when `p`
is an initial segment of `s`. -/
def strStartsWith : Text → Text → Bool
  | _, [] => true
  | [], _ :: _ => false
  | c :: cs, p :: ps => c == p && strStartsWith cs ps

/-- Read a named column from a record's cell list; a missing cell is what
pandas `astype(str)` renders as the text "nan". -/
def getField (cells : List (Text × Text)) (col : Text) : Text :=
  (cells.lookup col).getD ['n', 'a', 'n']

/-- Pharmacy fill record (one row of the pharmacy claims DataFrame):
`member_id`, `fill_date`, `days_supply`, and the code columns (e.g. "gpi"). -/
structure PharmacyFill where
  member_id : Nat
  fill_date : Date
  days_supply : Int
  codeCells : List (Text × Text)
deriving DecidableEq, Repr

/-- Medical claim record: `claim_id`, `member_id`, `service_from_date`,
diagnosis-code cells (dx1..dx8 in the default configuration), `paid_amount`. -/
structure MedicalClaim where
  claim_id : Nat
  member_id : Nat
  service_from_date : Date
  dxCells : List (Text × Text)
  paid_amount : Rat
deriving DecidableEq, Repr

/-- Eligibility span record: `member_id`, `eff_date`, `term_date`
(already parsed to dates, as `pd.to_datetime` does in `calculate_pmpm`). -/
structure EligSpan where
  member_id : Nat
  eff_date : Date
  term_date : Date
deriving DecidableEq, Repr

/-- Stable insertion of an element into a list (ascending by `le`). -/
def insSorted (le : α → α → Bool) (a : α) : List α → List α
  | [] => [a]
  | b :: t => if le a b then a :: b :: t else b :: insSorted le a t

/-- Stable sort, modelling pandas `sort_values` (ascending). -/
def sortBy (le : α → α → Bool) : List α → List α
  | [] => []
  | a :: t => insSorted le a (sortBy le t)

/-! ## calculate_pdc (claims_utils.py lines 64-122) -/

/-- Row-wise denotation of the selection mask of `calculate_pdc`
(lines 86-93): the base mask is `member_id == member_id AND
start_date <= fill_date <= end_date`, and the loop `mask &= startswith(code)`
is a left fold of conjunctions over `drug_codes`. -/
def pdcKeep (member_id : Nat) (drug_codes : List Text) (start_date end_date : Date)
    (code_column : Text) (r : PharmacyFill) : Bool :=
  drug_codes.foldl
    (fun m code => m && strStartsWith (getField r.codeCells code_column) code)
    (r.member_id == member_id &&
      decide (start_date.days ≤ r.fill_date.days) &&
      decide (r.fill_date.days ≤ end_date.days))

/-- The `fills` DataFrame of `calculate_pdc` (line 95): masked selection,
sorted by `fill_date`. -/
def pdcFills (pharmacy_df : List PharmacyFill) (member_id : Nat) (drug_codes : List Text)
    (start_date end_date : Date) (code_column : Text) : List PharmacyFill :=
  sortBy (fun a b => decide (a.fill_date.days ≤ b.fill_date.days))
    (pharmacy_df.filter (pdcKeep member_id drug_codes start_date end_date code_column))

/-- Denotation of the coverage-marking loop body for one fill (lines 104-110):
day `d` is marked by row `r` when `fill_day <= d < min (fill_day + days_supply)
observation_days` and `0 <= d`, where `fill_day = (fill_date - start_date).days`. -/
def fillCovers (start_date : Date) (observation_days : Int) (r : PharmacyFill)
    (d : Int) : Bool :=
  let fill_day := r.fill_date.days - start_date.days
  decide (fill_day ≤ d) &&
    decide (d < min (fill_day + r.days_supply) observation_days) &&
    decide (0 ≤ d)

/-- A day of the coverage bitmap is 1 exactly when some fill marked it. -/
def coveredDay (fills : List PharmacyFill) (start_date : Date) (observation_days : Int)
    (d : Int) : Bool :=
  fills.any (fun r => fillCovers start_date observation_days r d)

/-- Value of `covered.sum()` (line 112): the number of marked entries of the
length-`observation_days` bitmap. -/
def daysCovered (fills : List PharmacyFill) (start_date : Date)
    (observation_days : Int) : Nat :=
  (List.range observation_days.toNat).countP
    (fun d => coveredDay fills start_date observation_days (Int.ofNat d))

/-- Model of Python `round(x, 1)`: round to nearest at one decimal digit.
(Python uses banker's tie-breaking on floats; no statement proved here
depends on the direction of an exact tie.) -/
def round1 (q : Rat) : Rat := ((round (q * 10) : Int) : Rat) / 10

/-- Result record of `calculate_pdc`.  The source returns a dict whose key
set differs between the two branches: in the no-fill branch (line 98) the
keys `adherent` and `observation_days` are ABSENT, modelled by `none` in
those two fields; `pdc = none` models the present key with value `None`. -/
structure PdcResult where
  member_id : Nat
  pdc : Option Rat
  adherent : Option Bool
  fills : Nat
  days_covered : Nat
  observation_days : Option Int
deriving DecidableEq, Repr

/-- Embedding of `calculate_pdc` (lines 64-122).  In the source the
fill branch allocates `np.zeros(observation_days)`; `daysCovered` totalises
this with `Int.toNat` (the branch is only reached with at least one selected
fill, which forces `observation_days ≥ 1`; see the division-safety theorem). -/
def calculate_pdc (pharmacy_df : List PharmacyFill) (member_id : Nat)
    (drug_codes : List Text) (start_date end_date : Date) (code_column : Text) :
    PdcResult :=
  let fills := pdcFills pharmacy_df member_id drug_codes start_date end_date code_column
  if fills.length = 0 then
    { member_id := member_id, pdc := none, adherent := none, fills := 0,
      days_covered := 0, observation_days := none }
  else
    let observation_days : Int := (end_date.days - start_date.days) + 1
    let days_covered : Nat := daysCovered fills start_date observation_days
    let pdc : Rat := round1 (100 * (days_covered : Rat) / (observation_days : Rat))
    { member_id := member_id, pdc := some pdc,
      adherent := some (decide (80 ≤ pdc)), fills := fills.length,
      days_covered := days_covered, observation_days := some observation_days }

/-! ## calculate_pmpm (claims_utils.py lines 125-176) -/

/-- The calendar month index used by the member-month formula:
`(a.year - b.year) * 12 + (a.month - b.month)` equals
`monthIndex a - monthIndex b`. -/
def monthIndex (d : Date) : Int := d.year * 12 + d.month

/-- pandas `clip(lower = lo)` on a date: values below `lo` become `lo`. -/
def clipLower (d lo : Date) : Date := if d.days < lo.days then lo else d

/-- pandas `clip(upper = hi)` on a date: values above `hi` become `hi`. -/
def clipUpper (d hi : Date) : Date := if hi.days < d.days then hi else d

/-- Member-months contributed by one eligibility span (lines 162-168):
clip the span to the analysis window, take the inclusive month-count
`(end.year - start.year) * 12 + (end.month - start.month) + 1`, and clip
the result to a minimum of 0. -/
def spanMemberMonths (start_date end_date : Date) (s : EligSpan) : Int :=
  let period_start := clipLower s.eff_date start_date
  let period_end := clipUpper s.term_date end_date
  max ((monthIndex period_end - monthIndex period_start) + 1) 0

/-- Claims restricted to service dates within the analysis window
(lines 145-148). -/
def pmpmWindowClaims (medical_df : List MedicalClaim) (start_date end_date : Date) :
    List MedicalClaim :=
  medical_df.filter (fun c =>
    decide (start_date.days ≤ c.service_from_date.days) &&
    decide (c.service_from_date.days ≤ end_date.days))

/-- Per-member summed cost over the window-restricted claims (lines 150-156);
a member with no claim rows has sum 0, which is also what the left join plus
`fillna(0)` of lines 172-173 yields for that member. -/
def memberTotalCost (claims : List MedicalClaim) (m : Nat) : Rat :=
  ((claims.filter (fun c => c.member_id == m)).map (fun c => c.paid_amount)).sum

/-- Per-member summed member-months across all of the member's eligibility
spans (line 170). -/
def memberMonths (eligibility_df : List EligSpan) (start_date end_date : Date)
    (m : Nat) : Int :=
  ((eligibility_df.filter (fun s => s.member_id == m)).map
    (spanMemberMonths start_date end_date)).sum

/-- Output row of `calculate_pmpm`. -/
structure PmpmRow where
  member_id : Nat
  member_months : Int
  total_cost : Rat
  pmpm : Rat
deriving DecidableEq, Repr

/-- Embedding of `calculate_pmpm` (lines 125-176).  The output has one row
per distinct member of the eligibility input (the `groupby('member_id')` key
set; key order is immaterial to every statement proved here); the left join
with `fillna(0)` is absorbed into `memberTotalCost` (empty sum = 0);
`pmpm = total_cost / max(member_months, 1)` (line 174). -/
def calculate_pmpm (medical_df : List MedicalClaim) (eligibility_df : List EligSpan)
    (start_date end_date : Date) : List PmpmRow :=
  let claims := pmpmWindowClaims medical_df start_date end_date
  let members := (eligibility_df.map (fun s => s.member_id)).dedup
  members.map (fun m =>
    let mm := memberMonths eligibility_df start_date end_date m
    let total_cost := memberTotalCost claims m
    { member_id := m, member_months := mm, total_cost := total_cost,
      pmpm := total_cost / ((max mm 1 : Int) : Rat) })

/-! ## build_diagnosis_cohort (claims_utils.py lines 14-61) -/

/-- The medical claims DataFrame: its column list (consulted by the
`if col in df.columns` guard) and its rows. -/
structure MedicalDF where
  columns : List Text
  rows : List MedicalClaim
deriving DecidableEq, Repr

/-- Row-wise denotation of the diagnosis mask (lines 41-45): the mask starts
all-false and is OR-ed, for every configured dx column present in the
DataFrame and every ICD code, with `startswith(code)` on that column. -/
def claimMatches (columns dx_columns icd_codes : List Text) (c : MedicalClaim) : Bool :=
  dx_columns.any (fun col =>
    columns.contains col &&
    icd_codes.any (fun code => strStartsWith (getField c.dxCells col) code))

/-- Claims surviving the lookback cutoff and the diagnosis mask
(lines 37-47).  `now` is the `datetime.now()` reading made explicit
(spec section 9), at day granularity; `cutoff = now - lookback_days`. -/
def dxClaims (medical_df : MedicalDF) (icd_codes dx_columns : List Text)
    (lookback_days : Int) (now : Date) : List MedicalClaim :=
  ((medical_df.rows.filter
    (fun c => decide (now.days - lookback_days ≤ c.service_from_date.days))).filter
    (claimMatches medical_df.columns dx_columns icd_codes))

/-- Earlier of two dates (ties keep the first argument, as pandas `min`
over equal timestamps). -/
def minDate (d1 d2 : Date) : Date := if d2.days < d1.days then d2 else d1

/-- pandas `('service_from_date', 'min')` aggregation over a member's claims:
`none` for an empty group (which `groupby` never produces). -/
def minServiceDate : List MedicalClaim → Option Date
  | [] => none
  | c :: cs => some (cs.foldl (fun acc x => minDate acc x.service_from_date)
      c.service_from_date)

/-- pandas `('claim_id', 'nunique')` aggregation: number of distinct claim
identifiers. -/
def distinctClaimCount (claims : List MedicalClaim) : Nat :=
  ((claims.map (fun c => c.claim_id)).dedup).length

/-- Output row of `build_diagnosis_cohort`. -/
structure CohortRow where
  member_id : Nat
  index_date : Date
deriving DecidableEq, Repr

/-- The default dx column configuration dx1..dx8 (line 35). -/
def defaultDxColumns : List Text :=
  [['d','x','1'], ['d','x','2'], ['d','x','3'], ['d','x','4'],
   ['d','x','5'], ['d','x','6'], ['d','x','7'], ['d','x','8']]

/-- Embedding of `build_diagnosis_cohort` (lines 14-61): group the surviving
claims by member, aggregate distinct-claim count and minimum service date,
keep members with `claim_count >= min_claims`, return `{member_id, index_date}`
rows.  The `minServiceDate` of a grouped member is never `none` (the member
id came from a claim), so the `none` arm is unreachable. -/
def build_diagnosis_cohort (medical_df : MedicalDF) (icd_codes dx_columns : List Text)
    (min_claims : Nat) (lookback_days : Int) (now : Date) : List CohortRow :=
  let claims := dxClaims medical_df icd_codes dx_columns lookback_days now
  let members := (claims.map (fun c => c.member_id)).dedup
  members.filterMap (fun m =>
    let mc := claims.filter (fun c => c.member_id == m)
    match minServiceDate mc with
    | none => none
    | some d =>
        if min_claims ≤ distinctClaimCount mc then
          some { member_id := m, index_date := d }
        else none)

/-- The grouped sublist of surviving claims belonging to one member (the
member's group under `groupby('member_id')` on line 51). -/
def memberDxClaims (medical_df : MedicalDF) (icd_codes dx_columns : List Text)
    (lookback_days : Int) (now : Date) (m : Nat) : List MedicalClaim :=
  (dxClaims medical_df icd_codes dx_columns lookback_days now).filter
    (fun c => c.member_id == m)

/-! ## identify_episodes (claims_utils.py lines 179-213) -/

/-- Output row of `identify_episodes`: the claim with its assigned
episode number. -/
structure EpisodeRow where
  claim : MedicalClaim
  episode_num : Nat
deriving DecidableEq, Repr

/-- Episode numbering of the claims after the first (lines 201-211): a claim
whose day-gap from the previous sorted claim strictly exceeds `gap_days`
raises the running episode counter by 1 (`new_episode = 1`), otherwise it
keeps it (`new_episode = 0`); `episode_num` is the running cumulative sum. -/
def episodeTail (gap_days : Int) : MedicalClaim → Nat → List MedicalClaim → List EpisodeRow
  | _, _, [] => []
  | prev, n, c :: cs =>
      let n2 := if gap_days < c.service_from_date.days - prev.service_from_date.days
        then n + 1 else n
      { claim := c, episode_num := n2 } :: episodeTail gap_days c n2 cs

/-- Embedding of `identify_episodes` (lines 179-213): filter to the member,
sort ascending by service date, return empty for no claims (line 198); the
first sorted claim has `gap = NaN`, hence `new_episode = 1` and
`episode_num = 1`. -/
def identify_episodes (claims_df : List MedicalClaim) (member_id : Nat)
    (gap_days : Int) : List EpisodeRow :=
  let mc := sortBy (fun a b => decide (a.service_from_date.days ≤ b.service_from_date.days))
    (claims_df.filter (fun c => c.member_id == member_id))
  match mc with
  | [] => []
  | c :: cs => { claim := c, episode_num := 1 } :: episodeTail gap_days c 1 cs

/-- Relation between consecutive episode rows asserted by the episode
claims: episode numbers never decrease, and strictly increase across a gap
exceeding `gap_days`. -/
def episodeStep (gap_days : Int) (r1 r2 : EpisodeRow) : Prop :=
  r1.episode_num ≤ r2.episode_num ∧
    (gap_days < r2.claim.service_from_date.days - r1.claim.service_from_date.days →
      r1.episode_num < r2.episode_num)

/-! ## Concrete inputs used by scenario conjuncts, counterexamples and witnesses -/

/-- The default code column "gpi". -/
def gpiCol : Text := ['g', 'p', 'i']

/-- Scenario B observation window start (day 0 of a 20-day window). -/
def bStart : Date := { days := 100, year := 2023, month := 3 }

/-- Scenario B observation window end (day 19). -/
def bEnd : Date := { days := 119, year := 2023, month := 3 }

/-- Scenario B: 10-day fill starting on day 0. -/
def fillB1 : PharmacyFill :=
  { member_id := 2, fill_date := { days := 100, year := 2023, month := 3 },
    days_supply := 10, codeCells := [(gpiCol, ['1', '2'])] }

/-- Scenario B: 10-day fill starting on day 5. -/
def fillB2 : PharmacyFill :=
  { member_id := 2, fill_date := { days := 105, year := 2023, month := 3 },
    days_supply := 10, codeCells := [(gpiCol, ['1', '2'])] }

/-- Scenario B pharmacy DataFrame. -/
def scenarioBdf : List PharmacyFill := [fillB1, fillB2]

/-- Scenario B drug-code set (a single matching code). -/
def scenarioBCodes : List Text := [['1']]

/-- Analysis window start Jan 25 2023 (day number 24 counted from Jan 1). -/
def winStart : Date := { days := 24, year := 2023, month := 1 }

/-- Analysis window end Feb 28 2023. -/
def winEnd : Date := { days := 58, year := 2023, month := 2 }

/-- Eligibility span Jan 1 - Jan 20 2023: entirely before the analysis
window `[winStart, winEnd]`, but ending in the window's first calendar
month. -/
def spanJan : EligSpan :=
  { member_id := 7, eff_date := { days := 0, year := 2023, month := 1 },
    term_date := { days := 19, year := 2023, month := 1 } }

/-- Eligibility span in Dec 2022: entirely before the analysis window AND
ending in an earlier calendar month than the window start. -/
def spanDec : EligSpan :=
  { member_id := 8, eff_date := { days := -40, year := 2022, month := 12 },
    term_date := { days := -10, year := 2022, month := 12 } }

/-- Scenario A claim on day 0. -/
def claimA1 : MedicalClaim :=
  { claim_id := 1, member_id := 1,
    service_from_date := { days := 0, year := 2024, month := 1 },
    dxCells := [], paid_amount := 0 }

/-- Scenario A claim on day 40. -/
def claimA2 : MedicalClaim :=
  { claim_id := 2, member_id := 1,
    service_from_date := { days := 40, year := 2024, month := 2 },
    dxCells := [], paid_amount := 0 }

/-- Scenario A claim on day 100. -/
def claimA3 : MedicalClaim :=
  { claim_id := 3, member_id := 1,
    service_from_date := { days := 100, year := 2024, month := 4 },
    dxCells := [], paid_amount := 0 }

/-- Scenario A claims DataFrame (claims at days 0, 40, 100 for member 1). -/
def scenarioAdf : List MedicalClaim := [claimA1, claimA2, claimA3]

/-- A fill with negative `days_supply`. -/
def negFill : PharmacyFill :=
  { member_id := 1, fill_date := { days := 2, year := 2023, month := 1 },
    days_supply := -5, codeCells := [(gpiCol, ['1', '2'])] }

/-- Drug code matched by `negFill`. -/
def negCode : Text := ['1']

/-- Observation start for the negative-supply input (day 0). -/
def negStart : Date := { days := 0, year := 2023, month := 1 }

/-- Observation end for the negative-supply input (day 9, a 10-day window). -/
def negEnd : Date := { days := 9, year := 2023, month := 1 }

/-- Diagnosis code E11 (as a code prefix). -/
def codeE11 : Text := ['E', '1', '1']

/-- A dx1 cell with value E110. -/
def dxE110 : List (Text × Text) := [(['d', 'x', '1'], ['E', '1', '1', '0'])]

/-- Cohort witness claim: member 5, claim 51, day 10. -/
def claimW1 : MedicalClaim :=
  { claim_id := 51, member_id := 5,
    service_from_date := { days := 10, year := 2024, month := 1 },
    dxCells := dxE110, paid_amount := 0 }

/-- Cohort witness claim: member 5, claim 52, day 5. -/
def claimW2 : MedicalClaim :=
  { claim_id := 52, member_id := 5,
    service_from_date := { days := 5, year := 2024, month := 1 },
    dxCells := dxE110, paid_amount := 0 }

/-- Cohort witness claim: member 1, claim 11, day 8 (only one matching
claim, so member 1 must be excluded for `min_claims = 2`). -/
def claimW3 : MedicalClaim :=
  { claim_id := 11, member_id := 1,
    service_from_date := { days := 8, year := 2024, month := 1 },
    dxCells := dxE110, paid_amount := 0 }

/-- Cohort witness DataFrame. -/
def cohortWdf : MedicalDF := { columns := defaultDxColumns, rows := [claimW1, claimW2, claimW3] }

/-- Explicit `now` for the cohort witness (day 100). -/
def cohortWnow : Date := { days := 100, year := 2024, month := 4 }

/-! ## Helper lemmas -/

/-- A left fold of boolean conjunctions is true exactly when the seed and
every folded conjunct are true (denotation of the `mask &= ...` loop). -/
theorem foldl_and_eq_true (g : Text → Bool) (codes : List Text) :
    ∀ b : Bool, codes.foldl (fun m code => m && g code) b = true ↔
      (b = true ∧ ∀ code ∈ codes, g code = true) := by
  induction codes with
  | nil => intro b; simp
  | cons c cs ih =>
      intro b
      simp only [List.foldl_cons, ih, Bool.and_eq_true, List.mem_cons]
      constructor
      · rintro ⟨⟨hb, hc⟩, hall⟩
        refine ⟨hb, fun code hcode => ?_⟩
        rcases hcode with rfl | h
        · exact hc
        · exact hall _ h
      · rintro ⟨hb, hall⟩
        exact ⟨⟨hb, hall _ (Or.inl rfl)⟩, fun code h => hall _ (Or.inr h)⟩

/-- Characterisation of the fill-selection mask of `calculate_pdc`. -/
theorem pdcKeep_iff (member_id : Nat) (drug_codes : List Text)
    (start_date end_date : Date) (code_column : Text) (r : PharmacyFill) :
    pdcKeep member_id drug_codes start_date end_date code_column r = true ↔
      (r.member_id = member_id ∧ start_date.days ≤ r.fill_date.days ∧
        r.fill_date.days ≤ end_date.days ∧
        ∀ code ∈ drug_codes,
          strStartsWith (getField r.codeCells code_column) code = true) := by
  unfold pdcKeep
  rw [foldl_and_eq_true]
  simp only [Bool.and_eq_true, decide_eq_true_eq, beq_iff_eq]
  tauto

/-- Membership in a stable insertion. -/
theorem mem_insSorted (le : α → α → Bool) (a b : α) :
    ∀ l : List α, a ∈ insSorted le b l ↔ a = b ∨ a ∈ l := by
  intro l
  induction l with
  | nil => simp [insSorted]
  | cons x xs ih =>
      simp only [insSorted]
      by_cases h : le b x = true
      · simp [h]
      · simp only [if_neg h, List.mem_cons, ih]
        tauto

/-- Membership is invariant under the stable sort. -/
theorem mem_sortBy (le : α → α → Bool) (a : α) :
    ∀ l : List α, a ∈ sortBy le l ↔ a ∈ l := by
  intro l
  induction l with
  | nil => simp [sortBy]
  | cons x xs ih =>
      simp only [sortBy, mem_insSorted, List.mem_cons, ih]

/-- Length of a stable insertion. -/
theorem length_insSorted (le : α → α → Bool) (a : α) :
    ∀ l : List α, (insSorted le a l).length = l.length + 1 := by
  intro l
  induction l with
  | nil => rfl
  | cons x xs ih =>
      simp only [insSorted]
      by_cases h : le a x = true
      · simp [h]
      · simp only [if_neg h, List.length_cons, ih]

/-- The stable sort preserves length. -/
theorem length_sortBy (le : α → α → Bool) :
    ∀ l : List α, (sortBy le l).length = l.length := by
  intro l
  induction l with
  | nil => rfl
  | cons x xs ih =>
      simp only [sortBy, length_insSorted, List.length_cons, ih]

/-- Membership in the selected-and-sorted fills of `calculate_pdc`. -/
theorem mem_pdcFills (pharmacy_df : List PharmacyFill) (member_id : Nat)
    (drug_codes : List Text) (start_date end_date : Date) (code_column : Text)
    (r : PharmacyFill) :
    r ∈ pdcFills pharmacy_df member_id drug_codes start_date end_date code_column ↔
      (r ∈ pharmacy_df ∧
        pdcKeep member_id drug_codes start_date end_date code_column r = true) := by
  unfold pdcFills
  rw [mem_sortBy]
  simp [List.mem_filter]

/-- A nonempty fill selection forces a nonempty observation window. -/
theorem pdcFills_window (pharmacy_df : List PharmacyFill) (member_id : Nat)
    (drug_codes : List Text) (start_date end_date : Date) (code_column : Text)
    (h : pdcFills pharmacy_df member_id drug_codes start_date end_date code_column ≠ []) :
    start_date.days ≤ end_date.days := by
  obtain ⟨r, hr⟩ := List.exists_mem_of_ne_nil _ h
  have hk := ((mem_pdcFills pharmacy_df member_id drug_codes start_date end_date
    code_column r).1 hr).2
  have hc := (pdcKeep_iff member_id drug_codes start_date end_date code_column r).1 hk
  linarith [hc.2.1, hc.2.2.1]

/-- The covered-day count never exceeds the bitmap length. -/
theorem daysCovered_le (fills : List PharmacyFill) (start_date : Date)
    (observation_days : Int) :
    daysCovered fills start_date observation_days ≤ observation_days.toNat := by
  unfold daysCovered
  exact le_trans (List.countP_le_length _) (le_of_eq (List.length_range _))

/-- Rounding to one decimal keeps a value of [0, 100] inside [0, 100]. -/
theorem round1_bounds (q : Rat) (h0 : 0 ≤ q) (h1 : q ≤ 100) :
    0 ≤ round1 q ∧ round1 q ≤ 100 := by
  have hlo : (0 : Int) ≤ round (q * 10) := by
    rw [round_eq]
    refine Int.le_floor.2 ?_
    push_cast
    linarith
  have hhi : round (q * 10) ≤ 1000 := by
    rw [round_eq]
    have hfl : (⌊q * 10 + 1 / 2⌋ : Int) < 1001 := by
      refine Int.floor_lt.2 ?_
      push_cast
      linarith
    omega
  unfold round1
  constructor
  · refine div_nonneg ?_ (by norm_num)
    exact_mod_cast hlo
  · rw [div_le_iff₀ (by norm_num : (0 : Rat) < 10)]
    have : ((round (q * 10) : Int) : Rat) ≤ 1000 := by exact_mod_cast hhi
    linarith

/-- The folded running minimum is the seed or one of the visited dates. -/
theorem foldl_minDate_mem (l : List MedicalClaim) :
    ∀ a : Date,
      l.foldl (fun acc x => minDate acc x.service_from_date) a = a ∨
        l.foldl (fun acc x => minDate acc x.service_from_date) a ∈
          l.map (fun c => c.service_from_date) := by
  induction l with
  | nil => intro a; left; rfl
  | cons c cs ih =>
      intro a
      simp only [List.foldl_cons, List.map_cons, List.mem_cons]
      rcases ih (minDate a c.service_from_date) with h | h
      · rw [h]
        unfold minDate
        by_cases hc : c.service_from_date.days < a.days
        · rw [if_pos hc]; right; left; rfl
        · rw [if_neg hc]; left; rfl
      · right; right; exact h

/-- The folded running minimum is a lower bound (by day number) for the seed
and all visited dates. -/
theorem foldl_minDate_le (l : List MedicalClaim) :
    ∀ a : Date,
      (l.foldl (fun acc x => minDate acc x.service_from_date) a).days ≤ a.days ∧
        ∀ c ∈ l,
          (l.foldl (fun acc x => minDate acc x.service_from_date) a).days ≤
            c.service_from_date.days := by
  induction l with
  | nil => intro a; exact ⟨le_refl _, by simp⟩
  | cons c cs ih =>
      intro a
      have h1 := ih (minDate a c.service_from_date)
      have hle1 : (minDate a c.service_from_date).days ≤ a.days := by
        unfold minDate; split <;> omega
      have hle2 : (minDate a c.service_from_date).days ≤ c.service_from_date.days := by
        unfold minDate; split <;> omega
      refine ⟨le_trans h1.1 hle1, ?_⟩
      intro x hx
      rcases List.mem_cons.1 hx with rfl | hx
      · exact le_trans h1.1 hle2
      · exact h1.2 x hx

/-- The aggregated minimum service date is attained among the claims. -/
theorem minServiceDate_mem (l : List MedicalClaim) (d : Date)
    (h : minServiceDate l = some d) : d ∈ l.map (fun c => c.service_from_date) := by
  cases l with
  | nil => simp [minServiceDate] at h
  | cons c cs =>
      simp only [minServiceDate, Option.some.injEq] at h
      subst h
      rcases foldl_minDate_mem cs c.service_from_date with h | h
      · rw [h]; simp
      · simp only [List.map_cons, List.mem_cons]
        right; exact h

/-- The aggregated minimum service date is a lower bound for all claims. -/
theorem minServiceDate_le (l : List MedicalClaim) (d : Date)
    (h : minServiceDate l = some d) :
    ∀ c ∈ l, d.days ≤ c.service_from_date.days := by
  cases l with
  | nil => simp [minServiceDate] at h
  | cons c cs =>
      simp only [minServiceDate, Option.some.injEq] at h
      subst h
      intro x hx
      rcases List.mem_cons.1 hx with rfl | hx
      · exact (foldl_minDate_le cs x.service_from_date).1
      · exact (foldl_minDate_le cs c.service_from_date).2 x hx

/-- The episode rows produced after a given predecessor and running counter
satisfy the step relation pairwise. -/
theorem episodeTail_chain (gap_days : Int) :
    ∀ (cs : List MedicalClaim) (prev : MedicalClaim) (n : Nat),
      List.Chain' (episodeStep gap_days)
        ({ claim := prev, episode_num := n } :: episodeTail gap_days prev n cs) := by
  intro cs
  induction cs with
  | nil => intro prev n; simp [episodeTail]
  | cons c cs2 ih =>
      intro prev n
      simp only [episodeTail]
      refine List.chain'_cons.2 ⟨?_, ih c _⟩
      constructor
      · dsimp only
        split <;> omega
      · intro hgap
        dsimp only at hgap ⊢
        rw [if_pos hgap]
        omega

/-- Every episode number in the tail rows is at least the running counter. -/
theorem episodeTail_ge (gap_days : Int) :
    ∀ (cs : List MedicalClaim) (prev : MedicalClaim) (n : Nat),
      ∀ r ∈ episodeTail gap_days prev n cs, n ≤ r.episode_num := by
  intro cs
  induction cs with
  | nil => intro prev n r hr; simp [episodeTail] at hr
  | cons c cs2 ih =>
      intro prev n r hr
      simp only [episodeTail, List.mem_cons] at hr
      rcases hr with rfl | hr
      · dsimp only; split <;> omega
      · have := ih c _ r hr
        split at this <;> omega

/-- A single eligibility span never contributes negative member-months. -/
theorem spanMemberMonths_nonneg (start_date end_date : Date) (s : EligSpan) :
    0 ≤ spanMemberMonths start_date end_date s :=
  le_max_right _ 0

/-- Per-member summed member-months are nonnegative. -/
theorem memberMonths_nonneg (eligibility_df : List EligSpan)
    (start_date end_date : Date) (m : Nat) :
    0 ≤ memberMonths eligibility_df start_date end_date m := by
  unfold memberMonths
  refine List.sum_nonneg ?_
  intro x hx
  simp only [List.mem_map] at hx
  obtain ⟨s, _, rfl⟩ := hx
  exact spanMemberMonths_nonneg _ _ _

/-! ## Claim theorems -/

/-- Claim C7: when no fill matches the member, window and drug-code filters,
`calculate_pdc` returns an explicitly undefined pdc (`None`, not zero)
together with `fills = 0` and `days_covered = 0`, distinguishing "no data"
from "zero adherence". -/
theorem pdc_nofill_claim (pharmacy_df : List PharmacyFill) (member_id : Nat)
    (drug_codes : List Text) (start_date end_date : Date) (code_column : Text)
    (h : pdcFills pharmacy_df member_id drug_codes start_date end_date code_column = []) :
    calculate_pdc pharmacy_df member_id drug_codes start_date end_date code_column =
      { member_id := member_id, pdc := none, adherent := none, fills := 0,
        days_covered := 0, observation_days := none } ∧
    (calculate_pdc pharmacy_df member_id drug_codes start_date end_date
      code_column).pdc ≠ some 0 := by
  have hlen : (pdcFills pharmacy_df member_id drug_codes start_date end_date
      code_column).length = 0 := by rw [h]; rfl
  constructor
  · simp only [calculate_pdc]
    rw [if_pos hlen]
  · simp only [calculate_pdc]
    rw [if_pos hlen]
    simp

/-- Claim C7 witness: the no-fill return on an empty pharmacy DataFrame. -/
theorem pdc_nofill_claim_witness :
    calculate_pdc [] 1 [] negStart negEnd gpiCol =
      { member_id := 1, pdc := none, adherent := none, fills := 0,
        days_covered := 0, observation_days := none } ∧
    (calculate_pdc [] 1 [] negStart negEnd gpiCol).pdc ≠ some 0 :=
  pdc_nofill_claim [] 1 [] negStart negEnd gpiCol rfl

/-- Claim C9: whenever `calculate_pdc` reaches the division (i.e. at least
one fill was selected), the window is nonempty, so
`observation_days = (end_date - start_date).days + 1 ≥ 1` and the
denominator is neither zero nor negative. -/
theorem pdc_division_safe (pharmacy_df : List PharmacyFill) (member_id : Nat)
    (drug_codes : List Text) (start_date end_date : Date) (code_column : Text)
    (h : pdcFills pharmacy_df member_id drug_codes start_date end_date code_column ≠ []) :
    start_date.days ≤ end_date.days ∧
    1 ≤ end_date.days - start_date.days + 1 ∧
    (calculate_pdc pharmacy_df member_id drug_codes start_date end_date
        code_column).observation_days =
      some (end_date.days - start_date.days + 1) := by
  have hw := pdcFills_window pharmacy_df member_id drug_codes start_date end_date
    code_column h
  have hlen : ¬ (pdcFills pharmacy_df member_id drug_codes start_date end_date
      code_column).length = 0 := by
    intro h0
    exact h (List.length_eq_zero.1 h0)
  refine ⟨hw, by omega, ?_⟩
  simp only [calculate_pdc]
  rw [if_neg hlen]

/-- Claim C9 witness: scenario B has a nonempty fill selection. -/
theorem pdc_division_safe_witness :
    bStart.days ≤ bEnd.days ∧
    1 ≤ bEnd.days - bStart.days + 1 ∧
    (calculate_pdc scenarioBdf 2 scenarioBCodes bStart bEnd gpiCol).observation_days =
      some (bEnd.days - bStart.days + 1) :=
  pdc_division_safe scenarioBdf 2 scenarioBCodes bStart bEnd gpiCol (by decide)

/-- Claim C8: a fill record is selected by `calculate_pdc` exactly when its
member matches, its fill date lies in the inclusive window, and its
code-column value starts with EVERY code in the drug-code set. -/
theorem pdc_selection_claim (pharmacy_df : List PharmacyFill) (member_id : Nat)
    (drug_codes : List Text) (start_date end_date : Date) (code_column : Text)
    (r : PharmacyFill) :
    r ∈ pdcFills pharmacy_df member_id drug_codes start_date end_date code_column ↔
      (r ∈ pharmacy_df ∧ r.member_id = member_id ∧
        start_date.days ≤ r.fill_date.days ∧ r.fill_date.days ≤ end_date.days ∧
        ∀ code ∈ drug_codes,
          strStartsWith (getField r.codeCells code_column) code = true) := by
  rw [mem_pdcFills, pdcKeep_iff]

/-- Claim C8 witness: the selection characterisation applied to a concrete
selected fill. -/
theorem pdc_selection_claim_witness :
    fillB1 ∈ scenarioBdf ∧ fillB1.member_id = 2 ∧
    bStart.days ≤ fillB1.fill_date.days ∧ fillB1.fill_date.days ≤ bEnd.days ∧
    ∀ code ∈ scenarioBCodes,
      strStartsWith (getField fillB1.codeCells gpiCol) code = true :=
  (pdc_selection_claim scenarioBdf 2 scenarioBCodes bStart bEnd gpiCol fillB1).1
    (by decide)

/-- Claim C6 counterexample: on a fill with negative `days_supply`,
`calculate_pdc` does NOT fail fast: it returns an ordinary result in which
the offending record is counted among the fills, a defined pdc is reported,
and the record contributes zero covered days. -/
theorem pdc_neg_supply_cex :
    negFill.days_supply < 0 ∧
    (calculate_pdc [negFill] 1 [negCode] negStart negEnd gpiCol).fills = 1 ∧
    (calculate_pdc [negFill] 1 [negCode] negStart negEnd gpiCol).days_covered = 0 ∧
    ((calculate_pdc [negFill] 1 [negCode] negStart negEnd gpiCol).pdc).isSome = true :=
  ⟨by decide, by decide, by decide, by decide⟩

/-- Claim C6 amended: `calculate_pdc` silently retains a record with
non-positive `days_supply` — the record's marking range
`range(fill_day, min(fill_day + days_supply, observation_days))` is empty,
so if every record has non-positive supply the covered-day count is 0 and
no error is raised. -/
theorem pdc_neg_supply_amended (pharmacy_df : List PharmacyFill) (member_id : Nat)
    (drug_codes : List Text) (start_date end_date : Date) (code_column : Text)
    (h : ∀ r ∈ pharmacy_df, r.days_supply ≤ 0) :
    (calculate_pdc pharmacy_df member_id drug_codes start_date end_date
      code_column).days_covered = 0 := by
  simp only [calculate_pdc]
  split
  · rfl
  · dsimp only
    unfold daysCovered
    rw [List.countP_eq_zero]
    intro d _
    simp only [coveredDay, List.any_eq_true, not_exists, not_and]
    intro r hr
    have hmem := ((mem_pdcFills pharmacy_df member_id drug_codes start_date end_date
      code_column r).1 hr).1
    have hsup := h r hmem
    simp only [fillCovers, Bool.and_eq_true, decide_eq_true_eq, lt_min_iff, not_and]
    intro hcon
    omega

/-- Claim C6 amended witness: the all-negative-supply input from the
counterexample yields zero covered days. -/
theorem pdc_neg_supply_amended_witness :
    (calculate_pdc [negFill] 1 [negCode] negStart negEnd gpiCol).days_covered = 0 :=
  pdc_neg_supply_amended [negFill] 1 [negCode] negStart negEnd gpiCol (by decide)

/-- Claim C5 counterexample: in the no-fill case the returned dict does NOT
contain the `adherent` and `observation_days` fields (modelled by `none`),
refuting "every result contains the fields ... including the no-fill case". -/
theorem pdc_nofill_fields_cex :
    (calculate_pdc [] 1 [] negStart negEnd gpiCol).adherent = none ∧
    (calculate_pdc [] 1 [] negStart negEnd gpiCol).observation_days = none :=
  ⟨rfl, rfl⟩

/-- Claim C5 amended: whenever at least one fill is selected, the result
carries all six fields with `adherent = (pdc ≥ 80)` and
`observation_days = (end_date - start_date).days + 1 ≥ 1`; in the no-fill
case the result carries only `member_id`, the undefined `pdc`, `fills = 0`
and `days_covered = 0`, and the `adherent` and `observation_days` fields are
absent. -/
theorem pdc_fields_amended (pharmacy_df : List PharmacyFill) (member_id : Nat)
    (drug_codes : List Text) (start_date end_date : Date) (code_column : Text) :
    (pdcFills pharmacy_df member_id drug_codes start_date end_date code_column ≠ [] →
      ∃ p od,
        calculate_pdc pharmacy_df member_id drug_codes start_date end_date code_column =
          { member_id := member_id, pdc := some p,
            adherent := some (decide (80 ≤ p)),
            fills := (pdcFills pharmacy_df member_id drug_codes start_date end_date
              code_column).length,
            days_covered := daysCovered (pdcFills pharmacy_df member_id drug_codes
              start_date end_date code_column) start_date od,
            observation_days := some od } ∧
        od = end_date.days - start_date.days + 1 ∧ 1 ≤ od) ∧
    (pdcFills pharmacy_df member_id drug_codes start_date end_date code_column = [] →
      calculate_pdc pharmacy_df member_id drug_codes start_date end_date code_column =
        { member_id := member_id, pdc := none, adherent := none, fills := 0,
          days_covered := 0, observation_days := none }) := by
  constructor
  · intro h
    have hw := pdcFills_window pharmacy_df member_id drug_codes start_date end_date
      code_column h
    have hlen : ¬ (pdcFills pharmacy_df member_id drug_codes start_date end_date
        code_column).length = 0 := by
      intro h0
      exact h (List.length_eq_zero.1 h0)
    refine ⟨round1 (100 * ((daysCovered (pdcFills pharmacy_df member_id drug_codes
        start_date end_date code_column) start_date
        (end_date.days - start_date.days + 1) : Nat) : Rat) /
        ((end_date.days - start_date.days + 1 : Int) : Rat)),
      end_date.days - start_date.days + 1, ?_, rfl, by omega⟩
    simp only [calculate_pdc]
    rw [if_neg hlen]
  · intro h
    have hlen : (pdcFills pharmacy_df member_id drug_codes start_date end_date
        code_column).length = 0 := by rw [h]; rfl
    simp only [calculate_pdc]
    rw [if_pos hlen]

/-- Claim C5 amended witness: the no-fill arm at a concrete empty input. -/
theorem pdc_fields_amended_witness :
    calculate_pdc [] 1 [] negStart negEnd gpiCol =
      { member_id := 1, pdc := none, adherent := none, fills := 0,
        days_covered := 0, observation_days := none } :=
  (pdc_fields_amended [] 1 [] negStart negEnd gpiCol).2 rfl

/-- Claim C2: covered days form an idempotent union of clipped day-intervals:
`days_covered` never exceeds `observation_days` (in particular overlapping
fills cannot push it past the window length), pdc lies in [0, 100] whenever
defined, and scenario B (two 10-day fills at days 0 and 5 of a 20-day
window) yields `days_covered = 15` and `pdc = 75.0`. -/
theorem pdc_union_bounds (pharmacy_df : List PharmacyFill) (member_id : Nat)
    (drug_codes : List Text) (start_date end_date : Date) (code_column : Text) :
    (∀ od, (calculate_pdc pharmacy_df member_id drug_codes start_date end_date
        code_column).observation_days = some od →
      ((calculate_pdc pharmacy_df member_id drug_codes start_date end_date
        code_column).days_covered : Int) ≤ od) ∧
    (∀ p, (calculate_pdc pharmacy_df member_id drug_codes start_date end_date
        code_column).pdc = some p → 0 ≤ p ∧ p ≤ 100) ∧
    (calculate_pdc scenarioBdf 2 scenarioBCodes bStart bEnd gpiCol).days_covered = 15 ∧
    (calculate_pdc scenarioBdf 2 scenarioBCodes bStart bEnd gpiCol).pdc = some 75 := by
  refine ⟨?_, ?_, by decide, ?_⟩
  · intro od hod
    by_cases hnil : pdcFills pharmacy_df member_id drug_codes start_date end_date
        code_column = []
    · have hlen : (pdcFills pharmacy_df member_id drug_codes start_date end_date
          code_column).length = 0 := by rw [hnil]; rfl
      simp only [calculate_pdc] at hod
      rw [if_pos hlen] at hod
      simp at hod
    · have hw := pdcFills_window pharmacy_df member_id drug_codes start_date end_date
        code_column hnil
      have hlen : ¬ (pdcFills pharmacy_df member_id drug_codes start_date end_date
          code_column).length = 0 := by
        intro h0
        exact hnil (List.length_eq_zero.1 h0)
      simp only [calculate_pdc] at hod ⊢
      rw [if_neg hlen] at hod ⊢
      simp only [Option.some.injEq] at hod
      have hdc := daysCovered_le (pdcFills pharmacy_df member_id drug_codes
        start_date end_date code_column) start_date (end_date.days - start_date.days + 1)
      dsimp only
      omega
  · intro p hp
    by_cases hnil : pdcFills pharmacy_df member_id drug_codes start_date end_date
        code_column = []
    · have hlen : (pdcFills pharmacy_df member_id drug_codes start_date end_date
          code_column).length = 0 := by rw [hnil]; rfl
      simp only [calculate_pdc] at hp
      rw [if_pos hlen] at hp
      simp at hp
    · have hw := pdcFills_window pharmacy_df member_id drug_codes start_date end_date
        code_column hnil
      have hlen : ¬ (pdcFills pharmacy_df member_id drug_codes start_date end_date
          code_column).length = 0 := by
        intro h0
        exact hnil (List.length_eq_zero.1 h0)
      simp only [calculate_pdc] at hp
      rw [if_neg hlen] at hp
      simp only [Option.some.injEq] at hp
      have hodpos : (0 : Rat) < ((end_date.days - start_date.days + 1 : Int) : Rat) := by
        have h1 : (0 : Int) < end_date.days - start_date.days + 1 := by omega
        exact_mod_cast h1
      have hdc := daysCovered_le (pdcFills pharmacy_df member_id drug_codes
        start_date end_date code_column) start_date (end_date.days - start_date.days + 1)
      have hdcr : ((daysCovered (pdcFills pharmacy_df member_id drug_codes start_date
          end_date code_column) start_date (end_date.days - start_date.days + 1) : Nat) : Rat) ≤
          ((end_date.days - start_date.days + 1 : Int) : Rat) := by
        have h1 : ((daysCovered (pdcFills pharmacy_df member_id drug_codes start_date
            end_date code_column) start_date
            (end_date.days - start_date.days + 1) : Nat) : Int) ≤
            end_date.days - start_date.days + 1 := by omega
        exact_mod_cast h1
      rw [← hp]
      refine round1_bounds _ ?_ ?_
      · refine div_nonneg ?_ (le_of_lt hodpos)
        positivity
      · rw [div_le_iff₀ hodpos]
        nlinarith [hdcr]
  · have hlen : ¬ (pdcFills scenarioBdf 2 scenarioBCodes bStart bEnd gpiCol).length = 0 := by
      decide
    have hdc : daysCovered (pdcFills scenarioBdf 2 scenarioBCodes bStart bEnd gpiCol)
        bStart (bEnd.days - bStart.days + 1) = 15 := by decide
    simp only [calculate_pdc]
    rw [if_neg hlen]
    dsimp only
    rw [hdc]
    have hcast : ((bEnd.days - bStart.days + 1 : Int) : Rat) = 20 := by
      norm_num [bStart, bEnd]
    rw [hcast]
    norm_num [round1, round_eq]

/-- Claim C2 witness: the bounds theorem applied at scenario B's defined
pdc value. -/
theorem pdc_union_bounds_witness : (0 : Rat) ≤ 75 ∧ (75 : Rat) ≤ 100 :=
  (pdc_union_bounds scenarioBdf 2 scenarioBCodes bStart bEnd gpiCol).2.1 75
    (pdc_union_bounds scenarioBdf 2 scenarioBCodes bStart bEnd gpiCol).2.2.2

/-- Claim C4: for a fixed member and non-negative `gap_days`, episode
numbers are non-decreasing along the sorted claim order, the first claim
has episode 1, a claim whose day-gap from its predecessor exceeds
`gap_days` gets a strictly greater episode number, and claims at days
[0, 40, 100] with `gap_days = 30` receive episodes [1, 2, 3]. -/
theorem episodes_claim (claims_df : List MedicalClaim) (member_id : Nat)
    (gap_days : Int) (h : 0 ≤ gap_days) :
    List.Chain' (episodeStep gap_days) (identify_episodes claims_df member_id gap_days) ∧
    (∀ r l, identify_episodes claims_df member_id gap_days = r :: l →
      r.episode_num = 1) ∧
    (identify_episodes scenarioAdf 1 30).map
      (fun r => (r.claim.claim_id, r.episode_num)) = [(1, 1), (2, 2), (3, 3)] := by
  refine ⟨?_, ?_, by decide⟩
  · simp only [identify_episodes]
    split
    · exact List.chain'_nil
    · exact episodeTail_chain gap_days _ _ _
  · intro r l hrl
    simp only [identify_episodes] at hrl
    split at hrl
    · simp at hrl
    · rw [List.cons.injEq] at hrl
      rw [← hrl.1]

/-- Claim C4 witness: scenario A evaluated through the episode theorem. -/
theorem episodes_claim_witness :
    (identify_episodes scenarioAdf 1 30).map
      (fun r => (r.claim.claim_id, r.episode_num)) = [(1, 1), (2, 2), (3, 3)] :=
  (episodes_claim scenarioAdf 1 30 (by decide)).2.2

/-- Claim C3: every member in the cohort output has at least `min_claims`
distinct matching claim identifiers, its `index_date` is the minimum
matching service date (attained and a lower bound), and a member whose
distinct matching claim count is below `min_claims` is absent. -/
theorem cohort_claim (medical_df : MedicalDF) (icd_codes dx_columns : List Text)
    (min_claims : Nat) (lookback_days : Int) (now : Date) :
    (∀ row ∈ build_diagnosis_cohort medical_df icd_codes dx_columns min_claims
        lookback_days now,
      min_claims ≤ distinctClaimCount (memberDxClaims medical_df icd_codes dx_columns
        lookback_days now row.member_id) ∧
      row.index_date ∈ (memberDxClaims medical_df icd_codes dx_columns lookback_days now
        row.member_id).map (fun c => c.service_from_date) ∧
      ∀ c ∈ memberDxClaims medical_df icd_codes dx_columns lookback_days now
          row.member_id,
        row.index_date.days ≤ c.service_from_date.days) ∧
    (∀ m, distinctClaimCount (memberDxClaims medical_df icd_codes dx_columns
        lookback_days now m) < min_claims →
      ∀ row ∈ build_diagnosis_cohort medical_df icd_codes dx_columns min_claims
          lookback_days now,
        row.member_id ≠ m) := by
  have key : ∀ row ∈ build_diagnosis_cohort medical_df icd_codes dx_columns min_claims
      lookback_days now,
      minServiceDate (memberDxClaims medical_df icd_codes dx_columns lookback_days now
        row.member_id) = some row.index_date ∧
      min_claims ≤ distinctClaimCount (memberDxClaims medical_df icd_codes dx_columns
        lookback_days now row.member_id) := by
    intro row hrow
    simp only [build_diagnosis_cohort, List.mem_filterMap] at hrow
    obtain ⟨m, _, hf⟩ := hrow
    split at hf
    · exact absurd hf (by simp)
    · rename_i d hd
      split at hf
      · rename_i hcount
        rw [Option.some.injEq] at hf
        subst hf
        exact ⟨hd, hcount⟩
      · exact absurd hf (by simp)
  constructor
  · intro row hrow
    obtain ⟨hmin, hcount⟩ := key row hrow
    exact ⟨hcount, minServiceDate_mem _ _ hmin, minServiceDate_le _ _ hmin⟩
  · intro m hm row hrow heq
    have hc := (key row hrow).2
    rw [heq] at hc
    omega

/-- Claim C3 witness: the cohort theorem applied to a concrete DataFrame in
which member 5 has two distinct matching claims (days 10 and 5). -/
theorem cohort_claim_witness :
    2 ≤ distinctClaimCount (memberDxClaims cohortWdf [codeE11] defaultDxColumns 365
      cohortWnow 5) ∧
    ({ days := 5, year := 2024, month := 1 } : Date) ∈
      (memberDxClaims cohortWdf [codeE11] defaultDxColumns 365 cohortWnow 5).map
        (fun c => c.service_from_date) ∧
    ∀ c ∈ memberDxClaims cohortWdf [codeE11] defaultDxColumns 365 cohortWnow 5,
      ({ days := 5, year := 2024, month := 1 } : Date).days ≤ c.service_from_date.days :=
  (cohort_claim cohortWdf [codeE11] defaultDxColumns 2 365 cohortWnow).1
    { member_id := 5, index_date := { days := 5, year := 2024, month := 1 } } (by decide)

/-- Claim C10: the pmpm output is keyed by the eligibility input — a member
with window claims but no eligibility row is absent, while a member with
eligibility but no window claims appears with `total_cost = 0` (the left
join plus `fillna(0)`). -/
theorem pmpm_join_claim (medical_df : List MedicalClaim) (eligibility_df : List EligSpan)
    (start_date end_date : Date) :
    (∀ m : Nat, (∀ s ∈ eligibility_df, s.member_id ≠ m) →
      ∀ row ∈ calculate_pmpm medical_df eligibility_df start_date end_date,
        row.member_id ≠ m) ∧
    (∀ m : Nat, (∃ s ∈ eligibility_df, s.member_id = m) →
      (∀ c ∈ pmpmWindowClaims medical_df start_date end_date, c.member_id ≠ m) →
      ∃ row ∈ calculate_pmpm medical_df eligibility_df start_date end_date,
        row.member_id = m ∧ row.total_cost = 0) := by
  constructor
  · intro m hm row hrow heq
    simp only [calculate_pmpm, List.mem_map] at hrow
    obtain ⟨m0, hm0, rfl⟩ := hrow
    rw [List.mem_dedup, List.mem_map] at hm0
    obtain ⟨s, hs, hsm⟩ := hm0
    exact hm s hs (hsm.trans heq)
  · intro m hm hclaims
    obtain ⟨s, hs, hsm⟩ := hm
    have hmm : m ∈ (eligibility_df.map (fun s => s.member_id)).dedup :=
      List.mem_dedup.2 (List.mem_map.2 ⟨s, hs, hsm⟩)
    simp only [calculate_pmpm]
    refine ⟨_, List.mem_map_of_mem _ hmm, rfl, ?_⟩
    dsimp only
    unfold memberTotalCost
    have hnil : (pmpmWindowClaims medical_df start_date end_date).filter
        (fun c => c.member_id == m) = [] := by
      rw [List.filter_eq_nil_iff]
      intro c hc
      simp only [beq_iff_eq]
      exact hclaims c hc
    rw [hnil]
    rfl

/-- Claim C10 witness: a member with one eligibility span and no claims
appears in the output with zero total cost. -/
theorem pmpm_join_claim_witness :
    ∃ row ∈ calculate_pmpm [] [spanJan] winStart winEnd,
      row.member_id = 7 ∧ row.total_cost = 0 :=
  (pmpm_join_claim [] [spanJan] winStart winEnd).2 7 ⟨spanJan, by decide, by decide⟩
    (by intro c hc; simp [pmpmWindowClaims] at hc)

/-- Claim C1 counterexample: the span Jan 1 - Jan 20 2023 lies entirely
before the analysis window Jan 25 - Feb 28 2023, yet it contributes
1 member-month (not 0): the clipped period is Jan 25 .. Jan 20 whose
inclusive month-count is 1 because both ends fall in January. -/
theorem pmpm_outside_span_cex :
    spanJan.eff_date.days ≤ spanJan.term_date.days ∧
    spanJan.term_date.days < winStart.days ∧
    winStart.days ≤ winEnd.days ∧
    spanMemberMonths winStart winEnd spanJan = 1 ∧
    (calculate_pmpm [] [spanJan] winStart winEnd).map
      (fun row => (row.member_id, row.member_months)) = [(7, 1)] :=
  ⟨by decide, by decide, by decide, by decide, by decide⟩

/-- Claim C1 amended: member_months is always nonnegative and each span
contributes nonnegatively; a span entirely outside the analysis window
contributes exactly 0 member-months provided its near end also falls in a
strictly different calendar month than the nearest window boundary (an
outside span sharing that boundary's calendar month contributes 1, as the
counterexample shows). -/
theorem pmpm_member_months_amended (medical_df : List MedicalClaim)
    (eligibility_df : List EligSpan) (start_date end_date : Date) :
    (∀ row ∈ calculate_pmpm medical_df eligibility_df start_date end_date,
      0 ≤ row.member_months) ∧
    (∀ s : EligSpan, 0 ≤ spanMemberMonths start_date end_date s) ∧
    (∀ s : EligSpan, s.eff_date.days ≤ s.term_date.days →
      start_date.days ≤ end_date.days → s.term_date.days < start_date.days →
      monthIndex s.term_date < monthIndex start_date →
      spanMemberMonths start_date end_date s = 0) ∧
    (∀ s : EligSpan, s.eff_date.days ≤ s.term_date.days →
      start_date.days ≤ end_date.days → end_date.days < s.eff_date.days →
      monthIndex end_date < monthIndex s.eff_date →
      spanMemberMonths start_date end_date s = 0) := by
  refine ⟨?_, ?_, ?_, ?_⟩
  · intro row hrow
    simp only [calculate_pmpm, List.mem_map] at hrow
    obtain ⟨m, _, rfl⟩ := hrow
    exact memberMonths_nonneg eligibility_df start_date end_date m
  · intro s
    exact spanMemberMonths_nonneg _ _ _
  · intro s h1 h2 h3 h4
    unfold spanMemberMonths clipLower clipUpper
    rw [if_pos (by omega : s.eff_date.days < start_date.days),
      if_neg (by omega : ¬ end_date.days < s.term_date.days)]
    exact max_eq_right (by omega)
  · intro s h1 h2 h3 h4
    unfold spanMemberMonths clipLower clipUpper
    rw [if_neg (by omega : ¬ s.eff_date.days < start_date.days),
      if_pos (by omega : end_date.days < s.term_date.days)]
    exact max_eq_right (by omega)

/-- Claim C1 amended witness: a December 2022 span entirely before the
window, and in an earlier calendar month, contributes 0 member-months. -/
theorem pmpm_member_months_amended_witness :
    spanMemberMonths winStart winEnd spanDec = 0 :=
  (pmpm_member_months_amended [] [] winStart winEnd).2.2.1 spanDec (by decide)
    (by decide) (by decide) (by decide)
